import Mathlib

/-
  A shallow embedding of src/drug_delivering_code.py, the device-side
  controller of the arka pharmacy dispensing cabinet, together with
  theorems about its codec, dispense controller, report client and
  control loop.  Line numbers refer to src/drug_delivering_code.py.
-/

attribute [local semireducible] Rat.mul Rat.add Rat.sub Rat.inv

set_option maxRecDepth 8192

namespace Arka

/-- The constant api_version (line 26): the current API version tag. -/
def api_version : String := "0"

/-- The Python exceptions the modelled code can raise.  Every constructor
except keyboardInterrupt models a class deriving from Exception;
KeyboardInterrupt derives only from BaseException, so the except
Exception clause of main_async does not catch it. -/
inductive PyExc where
  | valueError (msg : String)
  | assertionError (msg : String)
  | nameError (missingName : String)
  | keyError (key : String)
  | indexError
  | typeError (msg : String)
  | structError
  | networkError (msg : String)
  | keyboardInterrupt
deriving DecidableEq

/-- Whether the exception is an instance of Exception, hence caught by an
except Exception clause. -/
def PyExc.derivesFromException : PyExc → Bool
  | .keyboardInterrupt => false
  | _ => true

/-- Equality of computation results is decidable, so that concrete runs of
the embedded code can be checked by evaluation. -/
instance instDecEqExcept {ε α : Type} [DecidableEq ε] [DecidableEq α] :
    DecidableEq (Except ε α)
  | .error e, .error f =>
    if h : e = f then .isTrue (by rw [h]) else .isFalse (fun hc => h (by cases hc; rfl))
  | .error _, .ok _ => .isFalse (fun hc => Except.noConfusion hc)
  | .ok _, .error _ => .isFalse (fun hc => Except.noConfusion hc)
  | .ok a, .ok b =>
    if h : a = b then .isTrue (by rw [h]) else .isFalse (fun hc => h (by cases hc; rfl))

/-- The scaling factor of pack_fingerprint (lines 109 and 114): the
largest double below one, times two to the fifteenth. -/
def scale : ℚ := (1 - 1 / 2 ^ 53) * 2 ^ 15

/-- One packed component (line 117): the floor of the value times scale,
the integer that np.floor followed by the int16 conversion produces for
an in-range input. -/
def quantize (x : ℚ) : ℤ := ((x * scale) : ℚ).floor

/-- The two little-endian bytes of the 16-bit two-complement
representation of n, as struct.pack emits for one value of format h
(line 121). -/
def int16Bytes (n : ℤ) : List ℕ :=
  [(n % 65536).toNat % 256, (n % 65536).toNat / 256]

/-- pack_fingerprint (lines 93 to 123).  The two range checks come first
(lines 102 and 103) and raise ValueError before any byte is produced; the
sanity check on the scaling factor (line 111) would raise AssertionError;
struct.pack with format <128h (line 121) raises struct.error unless
exactly 128 values are supplied; otherwise the result is the 256-byte
little-endian encoding of the 128 quantized values in vector order. -/
def pack_fingerprint (fingerprint : List ℚ) : Except PyExc (List ℕ) :=
  if fingerprint.any (fun x => 1 < x) then
    .error (.valueError "Fingerprint contains value greater than 1")
  else if fingerprint.any (fun x => x < -1) then
    .error (.valueError "Fingerprint contains value less than -1")
  else if (1 - 1 / 2 ^ 53 : ℚ) ≥ 1 then
    .error (.assertionError "Fingerprint packing uses incorrect scaling factor")
  else if fingerprint.length ≠ 128 then
    .error .structError
  else
    .ok (fingerprint.flatMap (fun x => int16Bytes (quantize x)))

/-- Decode one little-endian byte pair as a signed 16-bit integer in
two-complement.  Verification helper; also the integer half of the
spec-modelled unpack. -/
def decodeInt16 (lo hi : ℕ) : ℤ :=
  if 32768 ≤ lo + 256 * hi then (lo : ℤ) + 256 * hi - 65536
  else (lo : ℤ) + 256 * hi

/-- Decode a byte list as consecutive little-endian signed 16-bit
integers. -/
def unpackInts : List ℕ → List ℤ
  | lo :: hi :: rest => decodeInt16 lo hi :: unpackInts rest
  | _ => []

/-- Modelled from the spec: the codec section describes an
unpack(bytes) -> vector operation provided for round-trip testing, using
inverse scaling, but no such function exists anywhere under src/.
Following the spec wording, each little-endian signed 16-bit integer is
divided by scale. -/
def unpack (bs : List ℕ) : List ℚ :=
  (unpackInts bs).map (fun n : ℤ => (n : ℚ) / scale)

/-- The motor map din_to_motor (line 29), an association from DIN to
motor handle; only membership and lookup are used by the code. -/
abbrev MotorMap := List (String × String)

/-- dispense (lines 31 to 38): the subscript din_to_motor[din] raises
KeyError when the DIN is absent; when present, the body performs no
actuation and returns False. -/
def dispense (din : String) (dinToMotor : MotorMap) : Except PyExc Bool :=
  match dinToMotor.lookup din with
  | none => .error (.keyError din)
  | some _ => .ok false

/-- One prescription entry of the authenticate response; main_step reads
only its din field (line 209). -/
structure Prescription where
  din : String
deriving DecidableEq

/-- Externally observable events of one iteration, used to state ordering
and absence of activity. -/
inductive Ev where
  | sleepFor (seconds : ℕ)
  | netRequest (endpointPath : String)
  | reportTaskCreated
  | reportCompleted
  | dispenseCall (din : String)
deriving DecidableEq

set_option linter.unusedVariables false in
/-- report_dispensed (lines 40 to 91), as the pair of its event trace and
its outcome.  The settle sleep of 30 seconds (line 48) is unconditional
and precedes the empty check (line 51); an empty list then returns True
with no network activity.  A non-empty list opens a session and sends one
request; line 81 stores the coroutine returned by response.json() without
awaiting it, so the subscript on line 83 raises TypeError whatever the
server replied, aborting the retry loop on its first pass. -/
def report_dispensed (authToken : String) (drugsDispensed : List String) :
    List Ev × Except PyExc Bool :=
  if drugsDispensed.isEmpty then
    ([.sleepFor 30], .ok true)
  else
    ([.sleepFor 30, .netRequest "/user/pharmacy_done"],
      .error (.typeError "coroutine object is not subscriptable"))

/-- The prescription loop of main_step (lines 206 to 223), as a function
of the list it iterates over and the motor map: returns the pair of the
DINs for which dispense was called, in loop order, and the
drugs_dispensed list the loop builds, a DIN being appended only when
dispense returned True.  A DIN absent from the map is skipped by the
guard of line 212 before dispense is consulted; an exception raised by
dispense would propagate out of the loop. -/
def processPrescriptions (prescriptions : List Prescription) (dinToMotor : MotorMap) :
    Except PyExc (List String × List String) :=
  match prescriptions with
  | [] => .ok ([], [])
  | pres :: rest =>
    if (dinToMotor.lookup pres.din).isSome then
      match dispense pres.din dinToMotor with
      | .error e => .error e
      | .ok wasDispensed =>
        match processPrescriptions rest dinToMotor with
        | .error e => .error e
        | .ok (attempts, dispensed) =>
          .ok (pres.din :: attempts,
            if wasDispensed then pres.din :: dispensed else dispensed)
    else processPrescriptions rest dinToMotor

/-- The decoded JSON of the authenticate response; the fields read on
lines 196 to 207. -/
structure AuthResponse where
  version : String
  success : Bool
  id : String
  prescriptions : List Prescription
deriving DecidableEq

/-- The response handling of main_step as the source executes it.  Line
196 reads: data_response is not None and data.get, then a comparison of
data with api_version; but no name data is bound anywhere in the program
(the response was stored in data_response), so as soon as a decoded
response exists the second conjunct raises NameError, before the version
or success fields are consulted.  With no response, the conjunction
short-circuits and the branch is skipped. -/
def authResponseOutcome (dataResponse : Option AuthResponse) : Except PyExc Unit :=
  match dataResponse with
  | none => .ok ()
  | some _ => .error (.nameError "data")

/-- Lines 196 to 223 under the reading that the name data stands for
data_response, the evident intent of the branch; as actually written,
every path through it raises NameError, see authResponseOutcome.  The
version comparison is one more conjunct of the if condition of line 196,
so a mismatched version skips the branch exactly as success equal to
False does.  Inside the branch, line 204 awaits
asyncio.create_task(report_dispensed(auth_token, drugs_dispensed)): the
report task is spawned and then the iteration blocks until it completes,
before the prescription loop has run, and drugs_dispensed is still the
empty list created on line 202 when the report reads it. -/
def matchedBranch (dataResponse : Option AuthResponse) (dinToMotor : MotorMap) :
    List Ev × Except PyExc Unit :=
  match dataResponse with
  | none => ([], .ok ())
  | some r =>
    if r.success && r.version == api_version then
      match report_dispensed r.id [] with
      | (reportEvents, .error e) => (Ev.reportTaskCreated :: reportEvents, .error e)
      | (reportEvents, .ok _) =>
        match processPrescriptions r.prescriptions dinToMotor with
        | .error e =>
          (Ev.reportTaskCreated :: (reportEvents ++ [Ev.reportCompleted]), .error e)
        | .ok (attempts, _) =>
          (Ev.reportTaskCreated ::
            (reportEvents ++ [Ev.reportCompleted] ++ attempts.map Ev.dispenseCall),
            .ok ())
    else ([], .ok ())

/-- The per-iteration results of the external collaborators of main_step:
the success flag of capture.read (line 137), the colour conversion (line
145), the number of face boxes found (line 150), the fingerprints
generated (line 161) and the decoded authenticate response (line 192).
Each is an Except so that a raising collaborator is representable. -/
structure Env where
  captureRead : Except PyExc Bool
  cvtColor : Except PyExc Unit
  faceBoxes : Except PyExc ℕ
  faceEncodings : Except PyExc (List (List ℚ))
  httpResponse : Except PyExc AuthResponse

/-- main_step (lines 125 to 223): capture, early return on a failed read,
colour conversion, face detection, early return on zero faces,
fingerprint generation with subscript zero (IndexError on an empty list,
line 162), packing, the authenticate exchange, and the response handling
of line 196, which raises NameError on any decoded response. -/
def main_step (env : Env) : Except PyExc Unit := do
  let succeeded ← env.captureRead
  if !succeeded then return ()
  let _ ← env.cvtColor
  let numFaces ← env.faceBoxes
  if numFaces == 0 then return ()
  let fingerprints ← env.faceEncodings
  let fingerprint ←
    match fingerprints.head? with
    | none => Except.error PyExc.indexError
    | some f => Except.ok f
  let _ ← pack_fingerprint fingerprint
  let rsp ← env.httpResponse
  authResponseOutcome (some rsp)

/-- What the main loop does after one iteration of main_step. -/
inductive LoopDecision where
  | continueLoop (loggedError : Option PyExc)
  | propagate (e : PyExc)
deriving DecidableEq

/-- The try and except dispatch of main_async around main_step (lines 240
to 249): an except KeyboardInterrupt clause logs and raises
KeyboardInterrupt again, then an except Exception clause logs the error
and lets the loop continue with its next iteration. -/
def main_async_handle (result : Except PyExc Unit) : LoopDecision :=
  match result with
  | .ok _ => .continueLoop none
  | .error e =>
    if e = .keyboardInterrupt then .propagate .keyboardInterrupt
    else if e.derivesFromException then .continueLoop (some e)
    else .propagate e

/-- The scaling factor is positive. -/
theorem scale_pos : (0 : ℚ) < scale := by decide

/-- quantize agrees with the mathematical floor of the scaled value. -/
theorem quantize_eq_intFloor (x : ℚ) : quantize x = Int.floor (x * scale) := rfl

/-- The boundary value one packs to the top of the positive 16-bit range. -/
theorem quantize_one : quantize 1 = 32767 := by decide

/-- The boundary value minus one packs to the bottom of the 16-bit range. -/
theorem quantize_neg_one : quantize (-1) = -32768 := by decide

/-- Upper bound of a quantized in-range component. -/
theorem quantize_le_of_le_one {x : ℚ} (h : x ≤ 1) : quantize x ≤ 32767 := by
  rw [← quantize_one, quantize_eq_intFloor, quantize_eq_intFloor]
  exact Int.floor_le_floor (mul_le_mul_of_nonneg_right h scale_pos.le)

/-- Lower bound of a quantized in-range component. -/
theorem le_quantize_of_neg_one_le {x : ℚ} (h : -1 ≤ x) : -32768 ≤ quantize x := by
  rw [← quantize_neg_one, quantize_eq_intFloor, quantize_eq_intFloor]
  exact Int.floor_le_floor (mul_le_mul_of_nonneg_right h scale_pos.le)

/-- Decoding the two little-endian bytes of an in-range signed 16-bit
integer gives the integer back. -/
theorem decodeInt16_int16Bytes {n : ℤ} (h1 : -32768 ≤ n) (h2 : n ≤ 32767) :
    decodeInt16 ((n % 65536).toNat % 256) ((n % 65536).toNat / 256) = n := by
  unfold decodeInt16
  split <;> omega

/-- unpackInts splits off one encoded in-range integer at a time. -/
theorem unpackInts_cons (n : ℤ) (rest : List ℕ) (h1 : -32768 ≤ n) (h2 : n ≤ 32767) :
    unpackInts (int16Bytes n ++ rest) = n :: unpackInts rest := by
  simp only [int16Bytes, List.cons_append, List.nil_append, unpackInts]
  rw [decodeInt16_int16Bytes h1 h2]
  rfl

/-- Each encoded component occupies exactly two bytes. -/
theorem int16Bytes_length (n : ℤ) : (int16Bytes n).length = 2 := rfl

/-- Packing then integer-decoding a vector of in-range values recovers
the quantized integers, in vector order. -/
theorem unpackInts_flatMap (v : List ℚ) (hrange : ∀ x ∈ v, -1 ≤ x ∧ x ≤ 1) :
    unpackInts (v.flatMap (fun x => int16Bytes (quantize x))) = v.map quantize := by
  induction v with
  | nil => rfl
  | cons x rest ih =>
    have hx := hrange x (List.mem_cons_self x rest)
    rw [List.flatMap_cons, unpackInts_cons _ _ (le_quantize_of_neg_one_le hx.1)
        (quantize_le_of_le_one hx.2), List.map_cons,
      ih (fun y hy => hrange y (List.mem_cons_of_mem _ hy))]

/-- Each component contributes exactly two bytes. -/
theorem flatMap_int16Bytes_length (v : List ℚ) :
    (v.flatMap (fun x => int16Bytes (quantize x))).length = 2 * v.length := by
  induction v with
  | nil => rfl
  | cons x rest ih =>
    simp only [List.flatMap_cons, List.length_append, int16Bytes_length, ih,
      List.length_cons]
    omega

/-- On a valid vector every check of pack_fingerprint passes and the flat
byte encoding is returned. -/
theorem pack_fingerprint_ok (v : List ℚ) (hlen : v.length = 128)
    (hrange : ∀ x ∈ v, -1 ≤ x ∧ x ≤ 1) :
    pack_fingerprint v = .ok (v.flatMap (fun x => int16Bytes (quantize x))) := by
  have h1 : v.any (fun x => 1 < x) = false := by
    simp only [List.any_eq_false, decide_eq_true_eq]
    exact fun x hx => not_lt.mpr (hrange x hx).2
  have h2 : v.any (fun x => x < -1) = false := by
    simp only [List.any_eq_false, decide_eq_true_eq]
    exact fun x hx => not_lt.mpr (hrange x hx).1
  rw [pack_fingerprint, h1, h2]
  simp only [Bool.false_eq_true, if_false, hlen]
  rw [if_neg (by decide), if_neg (by decide)]

/-- C6: for every input vector containing a component outside the closed
interval from minus one to one, pack_fingerprint raises ValueError and
produces no output: the result is an error, so no byte is produced and
the vector never reaches the byte-packing step. -/
theorem pack_out_of_range_raises (v : List ℚ) (h : ∃ x ∈ v, x < -1 ∨ 1 < x) :
    ∃ msg, pack_fingerprint v = .error (.valueError msg) := by
  by_cases hg : v.any (fun x => 1 < x) = true
  · exact ⟨_, by rw [pack_fingerprint, if_pos hg]⟩
  · have hl : v.any (fun x => x < -1) = true := by
      obtain ⟨x, hx, hcase⟩ := h
      rcases hcase with hlt | hgt
      · exact List.any_eq_true.mpr ⟨x, hx, by simpa using hlt⟩
      · exact absurd (List.any_eq_true.mpr ⟨x, hx, by simpa using hgt⟩) hg
    exact ⟨_, by rw [pack_fingerprint, if_neg hg, if_pos hl]⟩

/-- Witness for C6 at the concrete vector holding three halves. -/
theorem pack_out_of_range_witness :
    ∃ msg, pack_fingerprint [(3 : ℚ) / 2] = .error (.valueError msg) :=
  pack_out_of_range_raises [(3 : ℚ) / 2] ⟨3 / 2, by simp, Or.inr (by decide)⟩

/-- C7: on a 128-component vector with every component between minus one
and one, pack_fingerprint succeeds with exactly 256 bytes that decode, in
vector order, as the little-endian signed 16-bit integers given by the
floor of each component times scale; the boundary component one packs to
32767, the top of the positive range and never the minimum, and the
all-zero vector packs to 256 zero bytes. -/
theorem pack_valid_vector_spec (v : List ℚ) (hlen : v.length = 128)
    (hrange : ∀ x ∈ v, -1 ≤ x ∧ x ≤ 1) :
    ∃ bs, pack_fingerprint v = .ok bs ∧ bs.length = 256 ∧
      unpackInts bs = v.map quantize ∧
      quantize 1 = 32767 ∧ quantize 1 ≠ -32768 ∧
      pack_fingerprint (List.replicate 128 (0 : ℚ)) =
        .ok (List.replicate 256 (0 : ℕ)) := by
  refine ⟨_, pack_fingerprint_ok v hlen hrange, ?_, unpackInts_flatMap v hrange,
    by decide, by decide, by decide⟩
  rw [flatMap_int16Bytes_length, hlen]

/-- Witness for C7 at the all-zero vector. -/
theorem pack_valid_vector_witness :
    ∃ bs, pack_fingerprint (List.replicate 128 (0 : ℚ)) = .ok bs ∧ bs.length = 256 ∧
      unpackInts bs = (List.replicate 128 (0 : ℚ)).map quantize ∧
      quantize 1 = 32767 ∧ quantize 1 ≠ -32768 ∧
      pack_fingerprint (List.replicate 128 (0 : ℚ)) =
        .ok (List.replicate 256 (0 : ℕ)) :=
  pack_valid_vector_spec (List.replicate 128 (0 : ℚ)) (by simp)
    (fun x hx => by rw [List.eq_of_mem_replicate hx]; exact ⟨by decide, by decide⟩)

/-- The quantization error of one component is at most one over scale. -/
theorem quantize_err (x : ℚ) : |((quantize x : ℤ) : ℚ) / scale - x| ≤ 1 / scale := by
  have hs := scale_pos
  have h1 : ((quantize x : ℤ) : ℚ) ≤ x * scale := by
    rw [quantize_eq_intFloor]; exact_mod_cast Int.floor_le (x * scale)
  have h2 : x * scale - 1 < ((quantize x : ℤ) : ℚ) := by
    rw [quantize_eq_intFloor]; exact_mod_cast Int.sub_one_lt_floor (x * scale)
  have key : ((quantize x : ℤ) : ℚ) / scale - x =
      (((quantize x : ℤ) : ℚ) - x * scale) / scale := by
    field_simp
    ring
  rw [key, abs_div, abs_of_pos hs]
  rw [div_le_div_iff_of_pos_right hs]
  rw [abs_le]
  constructor <;> linarith

/-- C8: unpack, modelled from the spec since src/ has no unpack, inverts
pack_fingerprint up to quantization error: on a valid vector, unpacking
the packed bytes reconstructs every component to within one over scale,
componentwise in vector order. -/
theorem unpack_pack_roundtrip (v : List ℚ) (hlen : v.length = 128)
    (hrange : ∀ x ∈ v, -1 ≤ x ∧ x ≤ 1) :
    ∃ bs, pack_fingerprint v = .ok bs ∧
      List.Forall₂ (fun x y => |y - x| ≤ 1 / scale) v (unpack bs) := by
  refine ⟨_, pack_fingerprint_ok v hlen hrange, ?_⟩
  rw [unpack, unpackInts_flatMap v hrange, List.map_map]
  rw [List.forall₂_map_right_iff]
  rw [List.forall₂_same]
  intro x _
  exact quantize_err x

/-- Witness for C8 at the all-zero vector. -/
theorem unpack_pack_roundtrip_witness :
    ∃ bs, pack_fingerprint (List.replicate 128 (0 : ℚ)) = .ok bs ∧
      List.Forall₂ (fun x y => |y - x| ≤ 1 / scale)
        (List.replicate 128 (0 : ℚ)) (unpack bs) :=
  unpack_pack_roundtrip (List.replicate 128 (0 : ℚ)) (by simp)
    (fun x hx => by rw [List.eq_of_mem_replicate hx]; exact ⟨by decide, by decide⟩)

/-- The prescription loop never raises, calls dispense once per stocked
occurrence in list order, and builds an empty dispensed list because the
dispense stub always returns False. -/
theorem processPrescriptions_eq (l : List Prescription) (m : MotorMap) :
    processPrescriptions l m =
      .ok ((l.filter (fun p => (m.lookup p.din).isSome)).map Prescription.din, []) := by
  induction l with
  | nil => rfl
  | cons p rest ih =>
    by_cases h : (m.lookup p.din).isSome
    · obtain ⟨motor, hm⟩ := Option.isSome_iff_exists.mp h
      simp [processPrescriptions, dispense, h, hm, ih, List.filter_cons]
    · simp [processPrescriptions, h, ih, List.filter_cons]

/-- Counting dispense calls: one per occurrence of a stocked DIN, none
for an unstocked DIN. -/
theorem count_attempts (l : List Prescription) (m : MotorMap) (d : String) :
    ((l.filter (fun p => (m.lookup p.din).isSome)).map Prescription.din).count d =
      if (m.lookup d).isSome then (l.map Prescription.din).count d else 0 := by
  induction l with
  | nil => simp
  | cons p rest ih =>
    by_cases hp : (m.lookup p.din).isSome
    · by_cases hd : p.din = d
      · subst hd
        simp [List.filter_cons, hp, List.count_cons, ih]
      · simp [List.filter_cons, hp, List.count_cons, hd, ih]
    · by_cases hd : p.din = d
      · subst hd
        simp [List.filter_cons, hp, List.count_cons, ih]
      · simp [List.filter_cons, hp, List.count_cons, hd, ih]

/-- Counterexample to C2: a matched prescription list holding the same
stocked DIN twice makes the loop of main_step call dispense twice for
that DIN within one iteration. -/
theorem duplicate_din_two_dispense_calls :
    processPrescriptions [⟨"00000001"⟩, ⟨"00000001"⟩] [("00000001", "7")] =
      .ok (["00000001", "00000001"], []) ∧
    1 < (["00000001", "00000001"] : List String).count "00000001" :=
  ⟨by decide, by decide⟩

/-- C2 amended: within one iteration, the loop of main_step makes exactly
one dispense call per occurrence of a stocked DIN in the matched
prescription list, and none for unstocked DINs; a DIN appearing twice is
therefore attempted twice, with no per-DIN deduplication. -/
theorem dispense_calls_per_occurrence (l : List Prescription) (m : MotorMap) :
    ∃ attempts dispensed,
      processPrescriptions l m = .ok (attempts, dispensed) ∧
      ∀ d : String, attempts.count d =
        if (m.lookup d).isSome then (l.map Prescription.din).count d else 0 :=
  ⟨_, _, processPrescriptions_eq l m, fun d => count_attempts l m d⟩

/-- Counterexample to C5: dispense on a DIN absent from the motor map
raises KeyError rather than returning False without error. -/
theorem dispense_absent_din_raises :
    dispense "99999999" [] = .error (.keyError "99999999") ∧
    dispense "99999999" [] ≠ .ok false :=
  ⟨rfl, by decide⟩

/-- C5 amended: a DIN absent from the motor map makes dispense itself
raise KeyError, with no actuation; the loop of main_step never calls
dispense on such a DIN because the guard of line 212 skips it first, so
the iteration performs no actuation attempt and raises no error for it. -/
theorem absent_din_skipped_by_guard (din : String) (m : MotorMap)
    (h : m.lookup din = none) :
    dispense din m = .error (.keyError din) ∧
    processPrescriptions [⟨din⟩] m = .ok ([], []) := by
  constructor
  · simp [dispense, h]
  · simp [processPrescriptions, h]

/-- Witness for the amended C5 at a concrete DIN and the empty map. -/
theorem absent_din_skipped_witness :
    dispense "11223344" [] = .error (.keyError "11223344") ∧
    processPrescriptions [⟨"11223344"⟩] [] = .ok ([], []) :=
  absent_din_skipped_by_guard "11223344" [] rfl

/-- C10: for every DIN present in the motor map, dispense returns False,
hence the dispensed list the loop builds is always empty, and a report
spawned with an empty list takes the empty branch, reporting success
after the settle delay with no network activity. -/
theorem actuation_never_succeeds :
    (∀ (din : String) (m : MotorMap), (m.lookup din).isSome = true →
        dispense din m = .ok false) ∧
    (∀ (l : List Prescription) (m : MotorMap), ∃ attempts,
        processPrescriptions l m = .ok (attempts, [])) ∧
    (∀ authToken : String,
        report_dispensed authToken [] = ([Ev.sleepFor 30], .ok true)) := by
  refine ⟨?_, ?_, fun _ => rfl⟩
  · intro din m h
    obtain ⟨motor, hm⟩ := Option.isSome_iff_exists.mp h
    simp [dispense, hm]
  · intro l m
    exact ⟨_, processPrescriptions_eq l m⟩

/-- Witness for C10 at a concrete stocked DIN. -/
theorem actuation_never_succeeds_witness :
    dispense "55555555" [("55555555", "3")] = .ok false ∧
    (∃ attempts, processPrescriptions [⟨"55555555"⟩] [("55555555", "3")] =
      .ok (attempts, [])) :=
  ⟨actuation_never_succeeds.1 "55555555" [("55555555", "3")] (by decide),
    actuation_never_succeeds.2.1 [⟨"55555555"⟩] [("55555555", "3")]⟩

/-- Counterexample to C9: with an empty dispensed list, report_dispensed
does succeed with no network request, but not immediately: its event
trace is the 30 second settle sleep, not the empty trace. -/
theorem report_empty_not_immediate :
    report_dispensed "token-a" [] = ([Ev.sleepFor 30], .ok true) ∧
    (report_dispensed "token-a" []).1 ≠ ([] : List Ev) :=
  ⟨rfl, by decide⟩

/-- C9 amended: report_dispensed with an empty dispensed list returns
success and performs no network request, but only after the fixed
30 second settle delay, which line 48 runs before the empty check of
line 51. -/
theorem report_empty_succeeds_after_settle (authToken : String) :
    report_dispensed authToken [] = ([Ev.sleepFor 30], .ok true) := rfl

/-- Every exception other than KeyboardInterrupt models a class deriving
from Exception. -/
theorem derivesFromException_of_ne (e : PyExc)
    (h : e ≠ PyExc.keyboardInterrupt) : e.derivesFromException = true := by
  cases e <;> first | rfl | exact absurd rfl h

/-- C3: every exception an iteration of main_step raises, from whichever
phase, is caught by the except Exception clause of main_async, logged,
and turned into a continue, so the loop proceeds to its next iteration;
the only error the loop ever propagates past an iteration boundary is
KeyboardInterrupt. -/
theorem iteration_failures_isolated :
    (∀ (env : Env) (e : PyExc), main_step env = .error e →
        e ≠ PyExc.keyboardInterrupt →
        main_async_handle (main_step env) = .continueLoop (some e)) ∧
    (main_async_handle (.error .keyboardInterrupt) =
        .propagate .keyboardInterrupt) ∧
    (∀ (r : Except PyExc Unit) (e : PyExc),
        main_async_handle r = .propagate e → e = PyExc.keyboardInterrupt) := by
  refine ⟨?_, rfl, ?_⟩
  · intro env e h hne
    rw [h]
    show (if e = PyExc.keyboardInterrupt then
        LoopDecision.propagate PyExc.keyboardInterrupt
      else if e.derivesFromException = true then LoopDecision.continueLoop (some e)
      else LoopDecision.propagate e) = LoopDecision.continueLoop (some e)
    rw [if_neg hne, if_pos (derivesFromException_of_ne e hne)]
  · intro r e h
    cases r with
    | ok _ => exact LoopDecision.noConfusion h
    | error f =>
      have hm : (if f = PyExc.keyboardInterrupt then
          LoopDecision.propagate PyExc.keyboardInterrupt
        else if f.derivesFromException = true then LoopDecision.continueLoop (some f)
        else LoopDecision.propagate f) = LoopDecision.propagate e := h
      split_ifs at hm with h1 h2
      · injection hm with h4
        exact h4.symm
      · exact absurd (derivesFromException_of_ne f h1) h2

/-- A concrete environment whose capture read raises; the later
collaborators are never consulted. -/
def envCaptureFault : Env :=
  ⟨.error (.networkError "camera read failed"), .ok (), .ok 0, .ok [],
    .error .indexError⟩

/-- Witness for C3: a raising capture read is logged and the loop
continues. -/
theorem iteration_failures_isolated_witness :
    main_async_handle (main_step envCaptureFault) =
      .continueLoop (some (.networkError "camera read failed")) :=
  iteration_failures_isolated.1 envCaptureFault
    (.networkError "camera read failed") rfl (by decide)

/-- C1 (code bug): the authenticate path of main_step cannot surface a
protocol error distinct from a business failure.  As written, line 196
evaluates the unbound name data, so every decoded response, version
mismatch or not, raises the same NameError; and under the evident
intended reading of the condition, a response with a mismatched version
tag silently skips the matched branch exactly as a business no-match
does, raising nothing at all. -/
theorem version_mismatch_indistinct :
    authResponseOutcome (some ⟨"1", true, "user-7", []⟩) =
      .error (.nameError "data") ∧
    authResponseOutcome (some ⟨api_version, true, "user-7", []⟩) =
      .error (.nameError "data") ∧
    (matchedBranch (some ⟨"1", true, "user-7", []⟩) []).2 = .ok () ∧
    matchedBranch (some ⟨"1", true, "user-7", []⟩) [] =
      matchedBranch (some ⟨api_version, false, "user-7", []⟩) [] :=
  ⟨rfl, rfl, by decide, by decide⟩

/-- C4 (code bug): in a matched iteration the report task is created and
then awaited to completion, settle sleep included, before any dispense
call runs, rather than being spawned after the dispense phase and left
unawaited; moreover the matched branch is unreachable as written, since
line 196 raises NameError on every decoded response. -/
theorem report_awaited_before_dispense :
    matchedBranch (some ⟨api_version, true, "user-7", [⟨"00000002"⟩]⟩)
        [("00000002", "4")] =
      ([Ev.reportTaskCreated, Ev.sleepFor 30, Ev.reportCompleted,
        Ev.dispenseCall "00000002"], .ok ()) ∧
    authResponseOutcome (some ⟨api_version, true, "user-7", [⟨"00000002"⟩]⟩) =
      .error (.nameError "data") :=
  ⟨by decide, rfl⟩

end Arka
